import Mathlib

/-!
Verification of the Nanodoc file-open intent pipeline
(`src/src-tauri/src/main.rs`).

The Rust core is small: a `setup` hook scans the launch arguments for at
most one candidate file path (reject a leading-dash first token; accept
when the token ends in `.pdf` or names an existing filesystem entry) and,
on acceptance, spawns a thread that sleeps 1000 ms and then emits the
`open-pdf-file` event to the webview window named `main` when that window
exists, dropping the request otherwise.  A Tauri command `open_file_path`
always answers `Ok(())` and does nothing.

The embedding below models the string tests on the character sequence of
the path (Rust `str::starts_with` / `str::ends_with` are exact byte-wise
prefix/suffix tests), the scanner as a function from the argument list and
a filesystem oracle to an optional candidate, and the timing behaviour as
a small transition system whose events are window creation, the display
layer's readiness signal, and the expiry of the 1000 ms timer.
-/

namespace Nanodoc

/-- Rust `str::starts_with`: exact prefix test on the character sequence. -/
def starts_with (s pre : String) : Bool :=
  pre.data.isPrefixOf s.data

/-- Rust `str::ends_with`: exact suffix test on the character sequence. -/
def ends_with (s suffix : String) : Bool :=
  suffix.data.isSuffixOf s.data

/-- Launch Argument Scanner, `main.rs` lines 25-37.  `pathExists` is the
filesystem oracle standing for `std::path::Path::new(p).exists()`.  The code
examines `args[1]` only (when `args.len() > 1`), rejects it when it starts
with `-`, and accepts it when it ends with `.pdf` or exists on disk. -/
def scanArgs (pathExists : String → Bool) (args : List String) : Option String :=
  match args with
  | _ :: filePath :: _ =>
    if !starts_with filePath "-" then
      if ends_with filePath ".pdf" || pathExists filePath then some filePath
      else none
    else none
  | _ => none

/-- An event emitted to the webview window: event name and payload string,
as in `window.emit("open-pdf-file", &file_path_clone)`. -/
structure Emission where
  event : String
  payload : String
deriving DecidableEq

/-- The body of the spawned thread after its sleep, `main.rs` lines 44-52:
if `get_webview_window("main")` returns a window, emit `open-pdf-file` with
the captured path; otherwise log and do nothing (the request is dropped). -/
def emitterThread (windowExists : Bool) (filePath : String) : List Emission :=
  if windowExists then [⟨"open-pdf-file", filePath⟩] else []

/-- Display surface readiness as named by the spec. -/
inductive DisplaySurfaceState where
  | notReady
  | ready
deriving DecidableEq

/-- Global state of one application run: whether `get_webview_window "main"`
currently returns a window, whether the display layer has signalled
readiness, the path held by a spawned timer thread that has not yet fired
(none when no thread is pending), and the events emitted so far. -/
structure SysState where
  windowExists : Bool
  display : DisplaySurfaceState
  pendingTimer : Option String
  emissions : List Emission
deriving DecidableEq

/-- The scheduler events whose interleaving the code is exposed to. -/
inductive Step where
  | windowCreated
  | readinessSignal
  | timerFires
deriving DecidableEq

/-- One scheduler step.  `windowCreated`: the webview window `main` is
constructed.  `readinessSignal`: the display layer signals readiness; the
signal comes from the frontend running inside the window, so the window
exists from that point on.  `timerFires`: the 1000 ms sleep expires and the
spawned closure of `main.rs` lines 41-53 runs; it consults only
`windowExists`, never `display`. -/
def step (s : SysState) (e : Step) : SysState :=
  match e with
  | Step.windowCreated => { s with windowExists := true }
  | Step.readinessSignal =>
    { s with windowExists := true, display := DisplaySurfaceState.ready }
  | Step.timerFires =>
    match s.pendingTimer with
    | none => s
    | some p =>
      { s with pendingTimer := none
               emissions := s.emissions ++ emitterThread s.windowExists p }

/-- State right after the `setup` hook ran with argument list `args`: no
window yet, display not ready, a timer thread pending exactly when the
scanner accepted a candidate, nothing emitted. -/
def initState (pathExists : String → Bool) (args : List String) : SysState :=
  { windowExists := false
    display := DisplaySurfaceState.notReady
    pendingTimer := scanArgs pathExists args
    emissions := [] }

/-- A whole run: the `setup` hook followed by an arbitrary interleaving of
scheduler events. -/
def run (pathExists : String → Bool) (args : List String) (steps : List Step) : SysState :=
  steps.foldl step (initState pathExists args)

/-- The `setup` hook's observable outcome, `main.rs` lines 19-59: the
accepted candidate (if any) and the hook's return value, which is always
`Ok(())`. -/
def setup (pathExists : String → Bool) (args : List String) :
    Option String × Except String Unit :=
  (scanArgs pathExists args, Except.ok ())

/-- Tauri command `open_file_path`, `main.rs` lines 6-10: ignores its
argument, touches no state, answers `Ok(())`. -/
def open_file_path (s : SysState) (_filePath : String) :
    SysState × Except String Unit :=
  (s, Except.ok ())

/-- The first token after the program path that does not start with `-`,
skipping over leading-dash tokens.  This is the reading of the scanner that
claim C4 asserts; it is NOT what the code computes. -/
def firstNonFlag (args : List String) : Option String :=
  (args.drop 1).find? (fun t => !starts_with t "-")

/-- One step neither creates a pending timer nor emits once no timer is
pending: the spawned thread runs at most once and nothing restarts it. -/
theorem step_no_pending (s : SysState) (e : Step) (h : s.pendingTimer = none) :
    (step s e).pendingTimer = none ∧ (step s e).emissions = s.emissions := by
  cases e <;> simp [step, h]

/-- Once no timer is pending, no later interleaving changes the emission
list: a dropped request is lost for the rest of the run. -/
theorem run_no_pending (steps : List Step) (s : SysState) (h : s.pendingTimer = none) :
    (steps.foldl step s).pendingTimer = none ∧
    (steps.foldl step s).emissions = s.emissions := by
  induction steps generalizing s with
  | nil => exact ⟨h, rfl⟩
  | cons e rest ih =>
    have h1 := step_no_pending s e h
    have h2 := ih (step s e) h1.1
    exact ⟨h2.1, h2.2.trans h1.2⟩

/-- Dispatcher invariant: either the single timer thread is still pending
(holding exactly the scanned candidate) and nothing is emitted, or the
timer has fired and the emission list is empty or the single event
`open-pdf-file` carrying the scanned candidate. -/
def dispatchInv (cand : Option String) (s : SysState) : Prop :=
  (s.pendingTimer = cand ∧ s.emissions = []) ∨
  (s.pendingTimer = none ∧
    (s.emissions = [] ∨
      ∃ p, cand = some p ∧ s.emissions = [Emission.mk "open-pdf-file" p]))

/-- The dispatcher invariant is preserved by every scheduler event. -/
theorem dispatchInv_step (cand : Option String) (s : SysState) (e : Step)
    (h : dispatchInv cand s) : dispatchInv cand (step s e) := by
  cases e with
  | windowCreated =>
    rcases h with ⟨h1, h2⟩ | ⟨h1, h2⟩
    · exact Or.inl ⟨h1, h2⟩
    · exact Or.inr ⟨h1, h2⟩
  | readinessSignal =>
    rcases h with ⟨h1, h2⟩ | ⟨h1, h2⟩
    · exact Or.inl ⟨h1, h2⟩
    · exact Or.inr ⟨h1, h2⟩
  | timerFires =>
    rcases h with ⟨h1, h2⟩ | ⟨h1, h2⟩
    · cases hc : cand with
      | none =>
        rw [hc] at h1
        simp [step, h1]
        exact Or.inl ⟨h1, h2⟩
      | some p =>
        rw [hc] at h1
        refine Or.inr ?_
        simp [step, h1, h2, emitterThread]
    · simp [step, h1]
      exact Or.inr ⟨h1, h2⟩

/-- The dispatcher invariant holds after any interleaving. -/
theorem dispatchInv_run (cand : Option String) (steps : List Step) (s : SysState)
    (h : dispatchInv cand s) : dispatchInv cand (steps.foldl step s) := by
  induction steps generalizing s with
  | nil => exact h
  | cons e rest ih => exact ih (step s e) (dispatchInv_step cand s e h)

/-- Claim C1: the claim states that no `open-pdf-file` emission occurs
while `DisplaySurfaceState = NotReady`, for every interleaving.  The code
gates the emission on the window handle existing after a fixed 1000 ms
sleep, never on a readiness signal.  This theorem evaluates the code on the
failing interleaving: a valid launch argument, the window is constructed,
the timer fires before any readiness signal — the emission happens while
the display state is still `notReady` (readiness is never signalled in the
trace, so the emission necessarily precedes readiness). -/
theorem C1_emits_before_readiness :
    (run (fun _ => false) ["app", "doc.pdf"]
        [Step.windowCreated, Step.timerFires]).emissions
      = [Emission.mk "open-pdf-file" "doc.pdf"] ∧
    (run (fun _ => false) ["app", "doc.pdf"]
        [Step.windowCreated, Step.timerFires]).display
      = DisplaySurfaceState.notReady := by
  exact ⟨by decide, by decide⟩

/-- Claim C2: the claim states that a request that arrives before the
display surface is ready is held/retried and delivered once readiness
occurs, never dropped.  The code's spawned thread checks the window exactly
once, when the 1000 ms timer fires; if the window does not exist yet it
logs and exits.  This theorem evaluates that interleaving: timer fires
before window creation, readiness arrives afterwards — the run reaches the
ready state, yet the emission list is empty and stays empty under every
continuation, so the request is lost. -/
theorem C2_request_dropped (future : List Step) :
    (future.foldl step (run (fun _ => false) ["app", "doc.pdf"]
        [Step.timerFires, Step.readinessSignal])).emissions = [] ∧
    (run (fun _ => false) ["app", "doc.pdf"]
        [Step.timerFires, Step.readinessSignal]).display
      = DisplaySurfaceState.ready := by
  refine ⟨?_, by decide⟩
  have h := run_no_pending future
    (run (fun _ => false) ["app", "doc.pdf"]
      [Step.timerFires, Step.readinessSignal]) (by decide)
  have hbase : (run (fun _ => false) ["app", "doc.pdf"]
      [Step.timerFires, Step.readinessSignal]).emissions = [] := by decide
  exact h.2.trans hbase

/-- Claim C3: the claim states that for a sequence of N valid candidates
arriving before readiness, exactly one notification fires once readiness
occurs, carrying the last candidate.  Already for N = 1 the code violates
this: with the valid candidate `report.pdf` accepted at startup, if the
1000 ms timer expires before the window is constructed, the request is
discarded, and after readiness occurs zero notifications have fired instead
of exactly one. -/
theorem C3_no_notification_after_readiness :
    (run (fun _ => false) ["app", "report.pdf"]
        [Step.timerFires, Step.windowCreated, Step.readinessSignal]).display
      = DisplaySurfaceState.ready ∧
    (run (fun _ => false) ["app", "report.pdf"]
        [Step.timerFires, Step.windowCreated, Step.readinessSignal]).emissions
      = [] := by
  exact ⟨by decide, by decide⟩

/-- Claim C4 counterexample: the claim says the scanner accepts the first
non-flag token after the program path, SKIPPING leading-dash flag tokens.
The code never skips: it examines `args[1]` only.  On the argument list
`["app", "-x", "doc.pdf"]` (no file exists), the first non-flag token is
`doc.pdf`, which ends with `.pdf`, yet the scanner yields no candidate. -/
theorem C4_counterexample :
    firstNonFlag ["app", "-x", "doc.pdf"] = some "doc.pdf" ∧
    ends_with "doc.pdf" ".pdf" = true ∧
    scanArgs (fun _ => false) ["app", "-x", "doc.pdf"] = none := by
  exact ⟨by decide, by decide, by decide⟩

/-- Claim C4 amended: when the FIRST token after the program path does not
begin with a dash and either ends with `.pdf` or names an existing
filesystem entry, the scanner yields exactly one candidate equal to that
token (no skipping over flag tokens takes place). -/
theorem C4_first_token_accepted (pathExists : String → Bool) (prog tok : String)
    (rest : List String) (hflag : starts_with tok "-" = false)
    (hok : ends_with tok ".pdf" = true ∨ pathExists tok = true) :
    scanArgs pathExists (prog :: tok :: rest) = some tok := by
  rcases hok with h | h <;> simp [scanArgs, hflag, h]

/-- Claim C4 amended, witness: the scanner accepts `doc.pdf` as `args[1]`
even with later tokens present and no file existing on disk. -/
theorem C4_first_token_accepted_witness :
    starts_with "doc.pdf" "-" = false ∧
    (ends_with "doc.pdf" ".pdf" = true ∨ (fun _ => false) "doc.pdf" = true) ∧
    scanArgs (fun _ => false) ["app", "doc.pdf", "extra"] = some "doc.pdf" :=
  ⟨by decide, Or.inl (by decide),
    C4_first_token_accepted (fun _ => false) "app" "doc.pdf" ["extra"]
      (by decide) (Or.inl (by decide))⟩

/-- Claim C5: the scanner examines only the first token after
`argument[0]`: it yields that token as the single candidate if and only if
the token does not begin with a dash and (it ends with `.pdf` or it names
an existing filesystem entry); otherwise it yields no candidate; and the
result is independent of every later token. -/
theorem C5_scanner_first_token_only (pathExists : String → Bool)
    (prog tok : String) (rest : List String) :
    (scanArgs pathExists (prog :: tok :: rest) = some tok ↔
      starts_with tok "-" = false ∧
        (ends_with tok ".pdf" = true ∨ pathExists tok = true)) ∧
    (scanArgs pathExists (prog :: tok :: rest) = none ∨
      scanArgs pathExists (prog :: tok :: rest) = some tok) ∧
    ∀ rest2 : List String,
      scanArgs pathExists (prog :: tok :: rest2)
        = scanArgs pathExists (prog :: tok :: rest) := by
  refine ⟨?_, ?_, fun rest2 => rfl⟩ <;>
    cases hb : starts_with tok "-" <;> cases hp : ends_with tok ".pdf" <;>
      cases he : pathExists tok <;> simp [scanArgs, hb, hp, he]

/-- Claim C6: for every accepted request, every interleaving leads to an
emission list that is either empty or the single event named
`open-pdf-file` whose payload is exactly the accepted candidate's path:
the signal carries the right name and payload and fires at most once per
accepted request. -/
theorem C6_emission_contract (pathExists : String → Bool) (args : List String)
    (steps : List Step) :
    (run pathExists args steps).emissions = [] ∨
    ∃ p, scanArgs pathExists args = some p ∧
      (run pathExists args steps).emissions = [Emission.mk "open-pdf-file" p] := by
  have h0 : dispatchInv (scanArgs pathExists args) (initState pathExists args) :=
    Or.inl ⟨rfl, rfl⟩
  have h := dispatchInv_run (scanArgs pathExists args) steps
    (initState pathExists args) h0
  rcases h with ⟨_, he⟩ | ⟨_, he⟩
  · exact Or.inl he
  · rcases he with he | ⟨p, hc, he⟩
    · exact Or.inl he
    · exact Or.inr ⟨p, hc, he⟩

/-- Claim C7: when no token after the program path is a non-flag token
(every one begins with a dash, or there are none at all), the scanner
yields no candidate and the `setup` hook still returns `Ok(())`: absence of
a file argument raises no error. -/
theorem C7_no_nonflag_no_candidate (pathExists : String → Bool)
    (args : List String)
    (h : ∀ t ∈ args.drop 1, starts_with t "-" = true) :
    (setup pathExists args).1 = none ∧
    (setup pathExists args).2 = Except.ok () := by
  refine ⟨?_, rfl⟩
  cases args with
  | nil => rfl
  | cons p rest =>
    cases rest with
    | nil => rfl
    | cons t rest2 =>
      have ht : starts_with t "-" = true := h t (by simp)
      simp [setup, scanArgs, ht]

/-- Claim C7 witness: an invocation carrying only dash-flag tokens yields
no candidate and no error. -/
theorem C7_no_nonflag_no_candidate_witness :
    (∀ t ∈ (["app", "-v", "--flag"] : List String).drop 1,
      starts_with t "-" = true) ∧
    (setup (fun _ => false) ["app", "-v", "--flag"]).1 = none ∧
    (setup (fun _ => false) ["app", "-v", "--flag"]).2 = Except.ok () :=
  ⟨by decide,
    C7_no_nonflag_no_candidate (fun _ => false) ["app", "-v", "--flag"]
      (by decide)⟩

/-- Claim C8: the inbound command `open_file_path` answers `Ok(())` for
every input string — never the error variant — and leaves the system state
unchanged, so it performs no state change and no emission. -/
theorem C8_open_file_path_noop (s : SysState) (p : String) :
    (open_file_path s p).2 = Except.ok () ∧
    (open_file_path s p).1 = s ∧
    (open_file_path s p).1.emissions = s.emissions :=
  ⟨rfl, rfl, rfl⟩

/-- Claim C9: arguments at index 2 and beyond never influence behaviour:
two runs agreeing on the program path, the first argument, the filesystem
oracle and the scheduler interleaving produce identical states — in
particular identical emissions — whatever the later arguments are. -/
theorem C9_later_args_no_influence (pathExists : String → Bool)
    (prog fstArg : String) (rest1 rest2 : List String) (steps : List Step) :
    run pathExists (prog :: fstArg :: rest1) steps
      = run pathExists (prog :: fstArg :: rest2) steps := rfl

/-- Claim C10: the extension test is an exact, case-sensitive `.pdf` suffix
match: any first argument whose character sequence does not end in the
lowercase `.pdf` (such as one ending in `.PDF`) and which names no existing
filesystem entry yields no candidate, and no emission occurs in any
interleaving. -/
theorem C10_case_sensitive_suffix (pathExists : String → Bool)
    (prog tok : String) (rest : List String) (steps : List Step)
    (hsuf : ends_with tok ".pdf" = false) (hex : pathExists tok = false) :
    scanArgs pathExists (prog :: tok :: rest) = none ∧
    (run pathExists (prog :: tok :: rest) steps).emissions = [] := by
  have hscan : scanArgs pathExists (prog :: tok :: rest) = none := by
    cases hb : starts_with tok "-" <;> simp [scanArgs, hb, hsuf, hex]
  have h0 : (initState pathExists (prog :: tok :: rest)).pendingTimer = none := by
    simp [initState, hscan]
  have h := run_no_pending steps (initState pathExists (prog :: tok :: rest)) h0
  exact ⟨hscan, h.2.trans rfl⟩

/-- Claim C10 witness: `doc.PDF` with no such file on disk produces no
candidate and no emission even when window creation, readiness and the
timer all occur. -/
theorem C10_case_sensitive_suffix_witness :
    ends_with "doc.PDF" ".pdf" = false ∧
    (fun _ => false) "doc.PDF" = false ∧
    scanArgs (fun _ => false) ["app", "doc.PDF"] = none ∧
    (run (fun _ => false) ["app", "doc.PDF"]
        [Step.windowCreated, Step.readinessSignal, Step.timerFires]).emissions
      = [] := by
  have h := C10_case_sensitive_suffix (fun _ => false) "app" "doc.PDF" []
    [Step.windowCreated, Step.readinessSignal, Step.timerFires]
    (by decide) rfl
  exact ⟨by decide, rfl, h.1, h.2⟩

end Nanodoc
